import Mathlib

/-!
Verification of the orchestration subsystem of the forensic-analysis
framework: a shallow embedding of the `ProcessManager` and
`WorkflowManager` classes (src/unnamed/part_001) and of the decision-tree
rule evaluator (src/app_management/routes.js), with theorems settling the
frozen claims about their behaviour.

Modelling conventions:
- JavaScript timestamps (`Date.now()`, ISO strings) are naturals counting
  milliseconds since the epoch; the current time is passed explicitly.
- The shared mutable `activeProcesses` map is an association list passed
  and returned explicitly; per-record operations take the record itself.
- Thrown JS `Error`s are `Except` errors; `try`/`catch` becomes the
  corresponding case split.
- Nondeterministic outside events (whether `process.kill` throws, whether
  type-specific cleanup throws, a worker's exit code) are explicit
  parameters of the operation they influence.
-/

/-- Lifecycle states of a supervised process, from the `processStates`
object (part_001 lines 57-65). -/
inductive ProcState
  | idle
  | initializing
  | running
  | paused
  | stopping
  | error
  | completed
deriving DecidableEq

/-- A state is terminal when it is `completed` or `error` (spec 4.1). -/
def isTerminal (s : ProcState) : Bool :=
  s = ProcState.completed || s = ProcState.error

/-- One entry of the `activeProcesses` registry: the object stored by
`ProcessManager.startProcess` (part_001 lines 103-111), with the optional
`error` and `endTime` fields that later transitions attach. -/
structure ProcessInfo where
  type : String
  parameters : List (String × String)
  state : ProcState
  startTime : Nat
  updateTime : Nat
  progress : Nat
  pid : Option Nat
  error : Option String
  endTime : Option Nat
deriving DecidableEq

/-- The five process types recognised by the `switch` in
`ProcessManager.startProcess` (part_001 lines 120-138). -/
def knownProcessTypes : List String :=
  ["disk-imaging", "memory-dump", "network-capture", "log-analysis", "malware-scan"]

/-- The `pausableProcesses` list of `ProcessManager.pauseProcess`
(part_001 line 242). -/
def pausableProcesses : List String :=
  ["disk-imaging", "network-capture", "log-analysis"]

/-- Failures `startProcess` can throw: `Error('Maximum concurrent
processes reached')` (line 96) and `Error('Unknown process type: ...')`
(line 137), distinguished here by constructor. -/
inductive StartError
  | capacityExceeded
  | unknownProcessType (processType : String)
deriving DecidableEq

/-- Number of registry records in a non-terminal state (the quantity the
spec's capacity invariant speaks about). -/
def nonTerminalCount (recs : List ProcessInfo) : Nat :=
  (recs.filter (fun p => !(isTerminal p.state))).length

/-- `ProcessManager.startProcess` (part_001 lines 92-157). The capacity
guard compares `activeProcesses.size` — the total length of the registry,
terminal records included — against `maxConcurrent`. On a known type the
record is inserted as `initializing` and then promoted to `running` with
the spawned pid attached; on an unknown type the `initializing` record has
already been inserted when the `switch` throws, so it stays behind in the
registry. The fresh id (built from `Date.now()` and `Math.random()` in the
source) and the spawned pid are supplied by the caller; the launcher spawn
itself is treated as succeeding. -/
def startProcess (reg : List (String × ProcessInfo)) (maxConcurrent : Nat)
    (processType : String) (freshId : String) (pid : Nat)
    (parameters : List (String × String)) (now : Nat) :
    List (String × ProcessInfo) × Except StartError String :=
  if maxConcurrent ≤ reg.length then
    (reg, Except.error StartError.capacityExceeded)
  else
    let initRec : ProcessInfo :=
      { type := processType, parameters := parameters,
        state := ProcState.initializing, startTime := now, updateTime := now,
        progress := 0, pid := none, error := none, endTime := none }
    if knownProcessTypes.contains processType then
      (reg ++ [(freshId, { initRec with state := ProcState.running, pid := some pid })],
        Except.ok freshId)
    else
      (reg ++ [(freshId, initRec)],
        Except.error (StartError.unknownProcessType processType))

/-- `ProcessManager.stopProcess` on an existing record (part_001 lines
164-222). The record first moves to `stopping`; the `process.kill` call is
wrapped in its own `try`/`catch` (lines 180-186), so `killFails` — whether
the kill throws — never influences the rest of the function.
`cleanupError` is the message of a rejection of `_cleanupProcess` (or any
later throw inside the outer `try`): `none` reaches the success epilogue
(state `completed`, progress 100, end timestamp, `return true`, and a
`setTimeout` deleting the record 3600000 ms later, lines 200-204);
`some msg` lands in the `catch` (lines 207-221), which sets state `error`,
captures the message and returns `false` — and never reaches the
`setTimeout`, so no purge is scheduled on that path. The result is the
updated record, the returned boolean and the time (if any) at which
deletion from the registry was scheduled. -/
def stopProcess (p : ProcessInfo) (killFails : Bool)
    (cleanupError : Option String) (now : Nat) :
    ProcessInfo × Bool × Option Nat :=
  let p1 : ProcessInfo := { p with state := ProcState.stopping, updateTime := now }
  match cleanupError with
  | some msg =>
      ({ p1 with state := ProcState.error, error := some msg, updateTime := now },
        false, none)
  | none =>
      ({ p1 with state := ProcState.completed
                 updateTime := now
                 endTime := some now
                 progress := 100 },
        true, some (now + 3600000))

/-- `ProcessManager.pauseProcess` on an existing record (part_001 lines
229-265). Checks, in source order: state must be `running` (line 237), the
type must be in `pausableProcesses` (line 243), a pid must be attached
(line 248). Any throw — including `process.kill` throwing on the SIGSTOP,
modelled by `killFails` — is caught and returns `false` with the record
untouched; on success the state becomes `paused`. -/
def pauseProcess (p : ProcessInfo) (killFails : Bool) (now : Nat) :
    ProcessInfo × Bool :=
  if p.state ≠ ProcState.running then (p, false)
  else if !(pausableProcesses.contains p.type) then (p, false)
  else
    match p.pid with
    | none => (p, false)
    | some _ =>
        if killFails then (p, false)
        else ({ p with state := ProcState.paused, updateTime := now }, true)

/-- `ProcessManager.resumeProcess` on an existing record (part_001 lines
272-302). Checks only that the state is `paused` (line 280) and that a pid
is attached (line 285) — unlike `pauseProcess` there is no
`pausableProcesses` membership check. On success the state becomes
`running`. -/
def resumeProcess (p : ProcessInfo) (killFails : Bool) (now : Nat) :
    ProcessInfo × Bool :=
  if p.state ≠ ProcState.paused then (p, false)
  else
    match p.pid with
    | none => (p, false)
    | some _ =>
        if killFails then (p, false)
        else ({ p with state := ProcState.running, updateTime := now }, true)

/-- Rendering of a JS value that may be `null` inside a template string:
an exit code. -/
def jsOptIntStr : Option Int → String
  | some c => toString c
  | none => "null"

/-- Rendering of a JS string-or-null inside a template string: a signal
name. -/
def jsOptStr : Option String → String
  | some s => s
  | none => "null"

/-- The error message built by the exit handler for a non-zero exit
(part_001 line 506). -/
def exitErrMsg (code : Option Int) (signal : Option String) : String :=
  "Process exited with code " ++ jsOptIntStr code ++ " (signal: " ++ jsOptStr signal ++ ")"

/-- The worker `exit` event handler installed by
`ProcessManager._monitorProcess` (part_001 lines 497-514), acting on a
record still present in the registry. `code === 0` yields `completed` with
progress 100; any other code (a non-zero integer, or `null` when killed by
a signal) yields `error` with the code and signal captured in the message;
both branches stamp `updateTime` and `endTime`. The second component is
the registry-deletion time this handler schedules: the handler contains no
such scheduling, so it is always `none`. -/
def onExit (p : ProcessInfo) (code : Option Int) (signal : Option String)
    (now : Nat) : ProcessInfo × Option Nat :=
  if code = some 0 then
    ({ p with state := ProcState.completed
              progress := 100
              updateTime := now
              endTime := some now }, none)
  else
    ({ p with state := ProcState.error
              error := some (exitErrMsg code signal)
              updateTime := now
              endTime := some now }, none)

/-- A terminal (completed) record as left behind by a finished stop, used
as a concrete test record. -/
def completedRec : ProcessInfo :=
  { type := "disk-imaging", parameters := [], state := ProcState.completed,
    startTime := 0, updateTime := 5, progress := 100, pid := some 11,
    error := none, endTime := some 5 }

/-- A record in the `error` terminal state, used as a concrete test
record. -/
def erroredRec : ProcessInfo :=
  { type := "disk-imaging", parameters := [], state := ProcState.error,
    startTime := 0, updateTime := 3, progress := 40, pid := some 11,
    error := some (exitErrMsg (some 2) none), endTime := some 3 }

/-- A running record with a pid attached, used as a concrete test
record. -/
def runningRec : ProcessInfo :=
  { type := "disk-imaging", parameters := [], state := ProcState.running,
    startTime := 0, updateTime := 1, progress := 40, pid := some 11,
    error := none, endTime := none }

/-- C1 counterexample: a registry holding a single `completed` record and
`maxConcurrent = 1`. The non-terminal count is `0 < 1`, yet `startProcess`
fails with the capacity error, because the source guard compares the total
registry size (terminal records linger for up to an hour after a stop, and
indefinitely after an exit-event termination) — refuting the claimed
"if and only if ... non-terminal ... records already in a terminal state
do not count against the cap". -/
theorem C1_capacity_counterexample :
    (startProcess [("p0", completedRec)] 1 "disk-imaging" "p1" 12 [] 6).2
      = Except.error StartError.capacityExceeded
    ∧ nonTerminalCount [completedRec] = 0 := by
  constructor
  · rfl
  · rfl

/-- C1 amended: `startProcess` fails with `CapacityExceeded` if and only
if the TOTAL number of records in the registry — terminal records not yet
purged included — is at least `maxConcurrent`; since non-terminal records
are a subset of the registry, a non-terminal count at or above the cap
still forces the failure (the spec direction that survives). -/
theorem C1_capacity_amended (reg : List (String × ProcessInfo))
    (maxConcurrent : Nat) (processType freshId : String) (pid : Nat)
    (parameters : List (String × String)) (now : Nat) :
    ((startProcess reg maxConcurrent processType freshId pid parameters now).2
        = Except.error StartError.capacityExceeded
      ↔ maxConcurrent ≤ reg.length)
    ∧ (maxConcurrent ≤ nonTerminalCount (reg.map Prod.snd) →
        (startProcess reg maxConcurrent processType freshId pid parameters now).2
          = Except.error StartError.capacityExceeded) := by
  have hle : nonTerminalCount (reg.map Prod.snd) ≤ reg.length := by
    have h1 : nonTerminalCount (reg.map Prod.snd) ≤ (reg.map Prod.snd).length :=
      List.length_filter_le _ _
    simpa using h1
  constructor
  · constructor
    · intro h
      by_contra hlt
      unfold startProcess at h
      rw [if_neg hlt] at h
      split at h <;> simp_all
    · intro h
      unfold startProcess
      rw [if_pos h]
  · intro h
    unfold startProcess
    rw [if_pos (Nat.le_trans h hle)]

/-- C1 amended witness at the concrete counter-registry. -/
theorem C1_capacity_amended_witness :
    (((startProcess [("p0", completedRec)] 1 "disk-imaging" "p1" 12 [] 6).2
        = Except.error StartError.capacityExceeded
      ↔ 1 ≤ [("p0", completedRec)].length)
    ∧ (1 ≤ nonTerminalCount ([("p0", completedRec)].map Prod.snd) →
        (startProcess [("p0", completedRec)] 1 "disk-imaging" "p1" 12 [] 6).2
          = Except.error StartError.capacityExceeded)) :=
  C1_capacity_amended [("p0", completedRec)] 1 "disk-imaging" "p1" 12 [] 6

/-- C3 counterexample: `stopProcess` on a record already in the terminal
state `error` moves it through `stopping` to `completed` and even reports
success — a subsequent operation changing the lifecycle state of a record
in a terminal state, refuting "no subsequent operation ever changes its
lifecycle state again". -/
theorem C3_terminal_counterexample :
    isTerminal erroredRec.state = true
    ∧ (stopProcess erroredRec false none 9).1.state = ProcState.completed
    ∧ (stopProcess erroredRec false none 9).2.1 = true := by
  refine ⟨rfl, rfl, rfl⟩

/-- C3 amended: `pauseProcess` and `resumeProcess` do leave a terminal
record entirely unchanged (their state guards reject anything that is not
`running` / `paused`), but `stopProcess` and the exit-event callback carry
no terminal-state guard and can overwrite a terminal state (see the
counterexample). -/
theorem C3_terminal_amended (p : ProcessInfo) (killFails : Bool) (now : Nat)
    (hterm : isTerminal p.state = true) :
    pauseProcess p killFails now = (p, false)
    ∧ resumeProcess p killFails now = (p, false) := by
  have hs : p.state = ProcState.completed ∨ p.state = ProcState.error := by
    unfold isTerminal at hterm
    rcases Bool.or_eq_true_iff.mp hterm with h | h
    · exact Or.inl (by exact of_decide_eq_true h)
    · exact Or.inr (by exact of_decide_eq_true h)
  constructor
  · unfold pauseProcess
    rcases hs with h | h <;> rw [h] <;> simp
  · unfold resumeProcess
    rcases hs with h | h <;> rw [h] <;> simp

/-- C3 amended witness at the concrete errored record. -/
theorem C3_terminal_amended_witness :
    pauseProcess erroredRec false 9 = (erroredRec, false)
    ∧ resumeProcess erroredRec false 9 = (erroredRec, false) :=
  C3_terminal_amended erroredRec false 9 (by rfl)

/-- C4: the exit handler transitions the record to `completed` with
progress 100 when the exit code is 0, and to `error` with the exit code
and signal captured in the error message for any other exit code
(including `null` for signal-killed workers); both branches stamp the end
timestamp. -/
theorem C4_exit_transition (p : ProcessInfo) (code : Option Int)
    (signal : Option String) (now : Nat) :
    (code = some 0 →
      (onExit p code signal now).1.state = ProcState.completed
      ∧ (onExit p code signal now).1.progress = 100
      ∧ (onExit p code signal now).1.endTime = some now)
    ∧ (code ≠ some 0 →
      (onExit p code signal now).1.state = ProcState.error
      ∧ (onExit p code signal now).1.error = some (exitErrMsg code signal)
      ∧ (onExit p code signal now).1.endTime = some now) := by
  constructor
  · intro h
    unfold onExit
    rw [if_pos h]
    exact ⟨rfl, rfl, rfl⟩
  · intro h
    unfold onExit
    rw [if_neg h]
    exact ⟨rfl, rfl, rfl⟩

/-- C4 witness: a worker exiting 0 and a worker exiting 2 at the concrete
running record. -/
theorem C4_exit_transition_witness :
    ((some (0 : Int) = some 0 →
      (onExit runningRec (some 0) none 7).1.state = ProcState.completed
      ∧ (onExit runningRec (some 0) none 7).1.progress = 100
      ∧ (onExit runningRec (some 0) none 7).1.endTime = some 7)
    ∧ (some (0 : Int) ≠ some 0 →
      (onExit runningRec (some 0) none 7).1.state = ProcState.error
      ∧ (onExit runningRec (some 0) none 7).1.error = some (exitErrMsg (some 0) none)
      ∧ (onExit runningRec (some 0) none 7).1.endTime = some 7))
    ∧ ((some (2 : Int) = some 0 →
      (onExit runningRec (some 2) none 7).1.state = ProcState.completed
      ∧ (onExit runningRec (some 2) none 7).1.progress = 100
      ∧ (onExit runningRec (some 2) none 7).1.endTime = some 7)
    ∧ (some (2 : Int) ≠ some 0 →
      (onExit runningRec (some 2) none 7).1.state = ProcState.error
      ∧ (onExit runningRec (some 2) none 7).1.error = some (exitErrMsg (some 2) none)
      ∧ (onExit runningRec (some 2) none 7).1.endTime = some 7)) :=
  ⟨C4_exit_transition runningRec (some 0) none 7,
   C4_exit_transition runningRec (some 2) none 7⟩

/-- C5 counterexample: `killFails = true` models `process.kill` throwing
while terminating the worker. That throw is swallowed by the inner
`try`/`catch` of `stopProcess`, so the stop still ends `completed` and
returns `true` — not `error`/`false` as the claim requires for "any
condition thrown during termination". -/
theorem C5_stop_counterexample :
    (stopProcess runningRec true none 9).1.state = ProcState.completed
    ∧ (stopProcess runningRec true none 9).2.1 = true := by
  exact ⟨rfl, rfl⟩

/-- C5 amended: `stopProcess` always leaves the record terminal — never
`running`, `paused` or `stopping`. When cleanup does not throw it sets
`completed`, progress 100 and the end timestamp and returns `true`
regardless of whether the kill during termination threw (that error is
caught and only logged); when cleanup throws, the record gets `error` with
the message captured and the call returns `false`. -/
theorem C5_stop_amended (p : ProcessInfo) (killFails : Bool)
    (cleanupError : Option String) (now : Nat) :
    isTerminal (stopProcess p killFails cleanupError now).1.state = true
    ∧ (cleanupError = none →
        (stopProcess p killFails cleanupError now).1.state = ProcState.completed
        ∧ (stopProcess p killFails cleanupError now).1.progress = 100
        ∧ (stopProcess p killFails cleanupError now).1.endTime = some now
        ∧ (stopProcess p killFails cleanupError now).2.1 = true)
    ∧ (∀ msg, cleanupError = some msg →
        (stopProcess p killFails cleanupError now).1.state = ProcState.error
        ∧ (stopProcess p killFails cleanupError now).1.error = some msg
        ∧ (stopProcess p killFails cleanupError now).2.1 = false) := by
  cases cleanupError with
  | none =>
      refine ⟨rfl, fun _ => ⟨rfl, rfl, rfl, rfl⟩, fun msg h => ?_⟩
      exact absurd h (by simp)
  | some m =>
      refine ⟨rfl, fun h => ?_, fun msg h => ?_⟩
      · exact absurd h (by simp)
      · cases h
        exact ⟨rfl, rfl, rfl⟩

/-- C5 amended witness: both cleanup outcomes at the concrete running
record. -/
theorem C5_stop_amended_witness :
    (isTerminal (stopProcess runningRec true none 9).1.state = true
    ∧ ((none : Option String) = none →
        (stopProcess runningRec true none 9).1.state = ProcState.completed
        ∧ (stopProcess runningRec true none 9).1.progress = 100
        ∧ (stopProcess runningRec true none 9).1.endTime = some 9
        ∧ (stopProcess runningRec true none 9).2.1 = true)
    ∧ (∀ msg, (none : Option String) = some msg →
        (stopProcess runningRec true none 9).1.state = ProcState.error
        ∧ (stopProcess runningRec true none 9).1.error = some msg
        ∧ (stopProcess runningRec true none 9).2.1 = false))
    ∧ (isTerminal (stopProcess runningRec false (some "cleanup failed") 9).1.state = true
    ∧ ((some "cleanup failed" : Option String) = none →
        (stopProcess runningRec false (some "cleanup failed") 9).1.state = ProcState.completed
        ∧ (stopProcess runningRec false (some "cleanup failed") 9).1.progress = 100
        ∧ (stopProcess runningRec false (some "cleanup failed") 9).1.endTime = some 9
        ∧ (stopProcess runningRec false (some "cleanup failed") 9).2.1 = true)
    ∧ (∀ msg, (some "cleanup failed" : Option String) = some msg →
        (stopProcess runningRec false (some "cleanup failed") 9).1.state = ProcState.error
        ∧ (stopProcess runningRec false (some "cleanup failed") 9).1.error = some msg
        ∧ (stopProcess runningRec false (some "cleanup failed") 9).2.1 = false)) :=
  ⟨C5_stop_amended runningRec true none 9,
   C5_stop_amended runningRec false (some "cleanup failed") 9⟩

/-- A paused record whose type (`memory-dump`) is not in the pausable
subset — a state the claimed transition rules deem impossible, used to
exercise `resumeProcess`'s missing type check. -/
def pausedMemDump : ProcessInfo :=
  { type := "memory-dump", parameters := [], state := ProcState.paused,
    startTime := 0, updateTime := 2, progress := 30, pid := some 11,
    error := none, endTime := none }

/-- C6 counterexample: `resumeProcess` performs no pausable-type check, so
on a `paused` record of the non-pausable type `memory-dump` it succeeds
and moves the record to `running` — refuting "both fail when the process
type is not in the pausable subset". -/
theorem C6_pause_resume_counterexample :
    pausableProcesses.contains pausedMemDump.type = false
    ∧ (resumeProcess pausedMemDump false 5).2 = true
    ∧ (resumeProcess pausedMemDump false 5).1.state = ProcState.running := by
  refine ⟨rfl, rfl, rfl⟩

/-- C6 amended: `pauseProcess` succeeds only from `running` and only for
pausable types (and then sets `paused`); `resumeProcess` succeeds only
from `paused` (and then sets `running`) but checks no type; outside their
required source states both leave the record unchanged and return
`false`. Consequently `paused` is reachable only through `pauseProcess`,
hence only from `running` and only for pausable types — the type check is
enforced at pause time, not at resume time. -/
theorem C6_pause_resume_amended (p : ProcessInfo) (killFails : Bool) (now : Nat) :
    ((pauseProcess p killFails now).2 = true →
        p.state = ProcState.running
        ∧ pausableProcesses.contains p.type = true
        ∧ (pauseProcess p killFails now).1.state = ProcState.paused)
    ∧ (p.state ≠ ProcState.running → pauseProcess p killFails now = (p, false))
    ∧ (pausableProcesses.contains p.type = false →
        (pauseProcess p killFails now).2 = false)
    ∧ ((resumeProcess p killFails now).2 = true →
        p.state = ProcState.paused
        ∧ (resumeProcess p killFails now).1.state = ProcState.running)
    ∧ (p.state ≠ ProcState.paused → resumeProcess p killFails now = (p, false))
    ∧ ((pauseProcess p killFails now).1.state = ProcState.paused →
        p.state = ProcState.paused ∨
          (p.state = ProcState.running ∧ pausableProcesses.contains p.type = true))
    ∧ ((resumeProcess p killFails now).1.state = ProcState.paused →
        p.state = ProcState.paused) := by
  unfold pauseProcess resumeProcess
  by_cases hr : p.state = ProcState.running <;>
    by_cases hq : p.state = ProcState.paused <;>
    by_cases hp : p.type ∈ pausableProcesses <;>
    cases hpid : p.pid <;>
    cases killFails <;>
    simp_all

/-- C6 amended witness at the concrete running `disk-imaging` record. -/
theorem C6_pause_resume_amended_witness :
    (((pauseProcess runningRec false 5).2 = true →
        runningRec.state = ProcState.running
        ∧ pausableProcesses.contains runningRec.type = true
        ∧ (pauseProcess runningRec false 5).1.state = ProcState.paused)
    ∧ (runningRec.state ≠ ProcState.running → pauseProcess runningRec false 5 = (runningRec, false))
    ∧ (pausableProcesses.contains runningRec.type = false →
        (pauseProcess runningRec false 5).2 = false)
    ∧ ((resumeProcess runningRec false 5).2 = true →
        runningRec.state = ProcState.paused
        ∧ (resumeProcess runningRec false 5).1.state = ProcState.running)
    ∧ (runningRec.state ≠ ProcState.paused → resumeProcess runningRec false 5 = (runningRec, false))
    ∧ ((pauseProcess runningRec false 5).1.state = ProcState.paused →
        runningRec.state = ProcState.paused ∨
          (runningRec.state = ProcState.running
            ∧ pausableProcesses.contains runningRec.type = true))
    ∧ ((resumeProcess runningRec false 5).1.state = ProcState.paused →
        runningRec.state = ProcState.paused)) :=
  C6_pause_resume_amended runningRec false 5

/-- C8 counterexample: a worker of the concrete running record exits 0.
The record reaches the terminal state `completed`, but the exit handler
(part_001 lines 497-514) contains no retention scheduling at all — the
one-hour `setTimeout` purge exists only in `stopProcess` — so no removal
is ever scheduled for this record, refuting "whether through stopProcess
or through the worker's own exit event". -/
theorem C8_retention_counterexample :
    isTerminal (onExit runningRec (some 0) none 7).1.state = true
    ∧ (onExit runningRec (some 0) none 7).2 = none := by
  exact ⟨rfl, rfl⟩

/-- C8 amended: only the success path of `stopProcess` schedules the
record's removal, exactly 3600000 ms (one hour) after the terminal
transition; the error path of `stopProcess` and the exit-event handler
schedule no removal, so records that become terminal through those paths
stay in the registry (and remain queryable) indefinitely. -/
theorem C8_retention_amended (p : ProcessInfo) (killFails : Bool) (now : Nat)
    (code : Option Int) (signal : Option String) :
    (stopProcess p killFails none now).2.2 = some (now + 3600000)
    ∧ (∀ msg, (stopProcess p killFails (some msg) now).2.2 = none)
    ∧ (onExit p code signal now).2 = none := by
  refine ⟨rfl, fun msg => rfl, ?_⟩
  unfold onExit
  by_cases h : code = some 0
  · rw [if_pos h]
  · rw [if_neg h]

/-- Lifecycle states of a workflow, from the string states used by
`WorkflowManager` (part_001 lines 641, 675, 703-708, 725, 810, 852). -/
inductive WState
  | created
  | running
  | stopping
  | stopped
  | completed
  | failed
deriving DecidableEq

/-- One branch of a decision step: an `action` string and the optional
`skipCount` used by `branch.skipCount || 1` (part_001 line 929). -/
structure Branch where
  action : String
  skipCount : Option Nat
deriving DecidableEq

/-- The workflow step variants exercised by the claims: a process step
carrying a process type, and a decision step carrying its branches
(part_001 lines 824-836; the delay and parallel handlers live in a part of
the file not needed by the claims). -/
inductive WStep
  | process (processType : String)
  | decision (branches : List Branch)
deriving DecidableEq

/-- The workflow record fields on which the claims speak: `currentStep`,
`state`, the append-only `processes` list (ids abstracted to naturals in
start order) and the captured `error` (part_001 lines 635-646). The extra
field `stops` is an instrumentation log recording, in order, every process
id on which `stopProcess` is invoked on behalf of this workflow: the step
loop and its failure path never call `stopProcess` (there is no such call
in `_executeWorkflowStep` at lines 801-858), only `stopWorkflow` does
(lines 714-722). -/
structure WorkflowRec where
  currentStep : Nat
  state : WState
  processes : List Nat
  error : Option String
  stops : List Nat
deriving DecidableEq

/-- JavaScript `branch.skipCount || 1` (part_001 lines 929-930): an absent
skipCount and the falsy `0` both count as 1. -/
def effSkipCount : Option Nat → Nat
  | none => 1
  | some 0 => 1
  | some (n + 1) => n + 1

/-- The index increment performed inside `_executeDecisionStep` itself
(part_001 lines 928-934) for the selected branch: `skip` adds
`skipCount || 1`, `execute` adds 1, and any other action string falls
through both branches and adds nothing. The handler always selects
`branches[0]` (line 924). -/
def decisionAdvance (br : Branch) : Nat :=
  if br.action = "skip" then effSkipCount br.skipCount
  else if br.action = "execute" then 1
  else 0

/-- One pass of `_executeWorkflowStep` (part_001 lines 801-858), run to
the completion of the dispatched step. Exits early when the workflow is no
longer `running` (line 803); transitions to `completed` when
`currentStep` has reached the end of the step list (lines 808-817). A
process step starts a worker (the fresh process id is the number of
processes started so far, appended to `processes`, lines 866-878) and then
polls until the worker's terminal state: `outcomes k` is the exit code of
the k-th started worker, so exit code 0 resolves the step and any other
outcome rejects it with the monitoring error text (lines 881-907). A
decision step advances the index by `decisionAdvance` of `branches[0]`; a
decision step with no branches throws reading `branches[0].name` (line
925). A resolved step then gets the post-step `currentStep += 1` of line
842; a rejected step lands in the `catch` (lines 848-857), which marks the
workflow `failed` with the error captured and stops nothing. -/
def stepOnce (outcomes : Nat → Option Int) (steps : List WStep)
    (w : WorkflowRec) : WorkflowRec :=
  if w.state ≠ WState.running then w
  else
    match steps[w.currentStep]? with
    | none => { w with state := WState.completed }
    | some (WStep.process _) =>
        if outcomes w.processes.length = some 0 then
          { w with currentStep := w.currentStep + 1
                   processes := w.processes ++ [w.processes.length] }
        else
          { w with state := WState.failed
                   processes := w.processes ++ [w.processes.length]
                   error := some ("Process " ++ toString w.processes.length
                     ++ " failed: " ++ exitErrMsg (outcomes w.processes.length) none) }
    | some (WStep.decision branches) =>
        match branches[0]? with
        | none =>
            { w with state := WState.failed
                     error := some "Cannot read properties of undefined" }
        | some br => { w with currentStep := w.currentStep + decisionAdvance br + 1 }

/-- The `setImmediate`-driven step loop (part_001 line 847): repeat
`stepOnce` while the workflow is `running`, with explicit fuel (each
iteration either advances, completes or fails, so any fuel at least the
number of remaining iterations yields the final record). -/
def runSteps (outcomes : Nat → Option Int) (steps : List WStep) :
    Nat → WorkflowRec → WorkflowRec
  | 0, w => w
  | Nat.succ fuel, w =>
      if w.state = WState.running then
        runSteps outcomes steps fuel (stepOnce outcomes steps w)
      else w

/-- `WorkflowManager.stopWorkflow` on an existing record (part_001 lines
696-737): rejected on `completed`/`failed` workflows, otherwise it invokes
`stopProcess` on every id in `processes` (recorded in `stops`) and moves
the workflow to `stopped`. Present to witness that `stops` does record
stop requests when the source makes them. -/
def stopWorkflow (w : WorkflowRec) : WorkflowRec × Bool :=
  if w.state = WState.completed ∨ w.state = WState.failed then (w, false)
  else ({ w with state := WState.stopped
                 stops := w.stops ++ w.processes }, true)

/-- A freshly started workflow record, as `startWorkflow` leaves it
before the first step executes. -/
def freshWorkflow : WorkflowRec :=
  { currentStep := 0, state := WState.running, processes := [], error := none,
    stops := [] }

/-- The branch used in the C2 counterexample: action `skip` with
`skipCount` 1. -/
def skipBranch : Branch := { action := "skip", skipCount := some 1 }

/-- Step list for the C2 counterexample: a decision step whose only
branch skips 1 step, followed by two process steps. -/
def decisionSkipSteps : List WStep :=
  [WStep.decision [skipBranch], WStep.process "disk-imaging",
    WStep.process "malware-scan"]

/-- C2 counterexample: executing the decision step of `decisionSkipSteps`
from index 0 lands on index 2, not index 0 + skip count = 1: the handler
adds the skip count and then the post-step advance of line 842 adds one
more — refuting "advances currentStepIndex by exactly the selected
branch's skip count when the branch action is skip". -/
theorem C2_decision_counterexample :
    (stepOnce (fun _ => some 0) decisionSkipSteps freshWorkflow).currentStep = 2
    ∧ effSkipCount skipBranch.skipCount = 1
    ∧ freshWorkflow.currentStep = 0 := by
  refine ⟨rfl, rfl, rfl⟩

/-- C2 amended: completing a decision step advances `currentStepIndex` by
the selected branch's skip count (default 1, with the falsy 0 also giving
1) PLUS one when the branch action is `skip`, by exactly 2 when the action
is `execute` (the source's name for continuing; there is no `continue`
case), and by exactly 1 for any other action string, which falls through
the handler and receives only the post-step advance; the index never
decreases (also across process steps and loop iterations). -/
theorem C2_decision_amended (outcomes : Nat → Option Int) (steps : List WStep)
    (w : WorkflowRec) (branches : List Branch) (br : Branch)
    (hrun : w.state = WState.running)
    (hstep : steps[w.currentStep]? = some (WStep.decision branches))
    (hbr : branches[0]? = some br) :
    (br.action = "skip" →
      (stepOnce outcomes steps w).currentStep
        = w.currentStep + effSkipCount br.skipCount + 1)
    ∧ (br.action = "execute" →
      (stepOnce outcomes steps w).currentStep = w.currentStep + 2)
    ∧ (br.action ≠ "skip" → br.action ≠ "execute" →
      (stepOnce outcomes steps w).currentStep = w.currentStep + 1)
    ∧ (∀ steps' outcomes' (w' : WorkflowRec),
        w'.currentStep ≤ (stepOnce outcomes' steps' w').currentStep)
    ∧ (∀ steps' outcomes' fuel (w' : WorkflowRec),
        w'.currentStep ≤ (runSteps outcomes' steps' fuel w').currentStep) := by
  have hmono : ∀ steps' outcomes' (w' : WorkflowRec),
      w'.currentStep ≤ (stepOnce outcomes' steps' w').currentStep := by
    intro steps' outcomes' w'
    unfold stepOnce
    split
    · exact Nat.le_refl _
    · split
      · exact Nat.le_refl _
      · split
        · exact Nat.le_succ _
        · exact Nat.le_refl _
      · split
        · exact Nat.le_refl _
        · exact Nat.le_succ_of_le (Nat.le_add_right _ _)
  have hdec : (stepOnce outcomes steps w).currentStep
      = w.currentStep + decisionAdvance br + 1 := by
    unfold stepOnce
    rw [if_neg (by simp [hrun]), hstep]
    dsimp only
    rw [hbr]
  refine ⟨?_, ?_, ?_, hmono, ?_⟩
  · intro h
    rw [hdec]
    unfold decisionAdvance
    rw [if_pos h]
  · intro h
    rw [hdec]
    unfold decisionAdvance
    rw [if_neg (by simp [h]), if_pos h]
  · intro h1 h2
    rw [hdec]
    unfold decisionAdvance
    rw [if_neg h1, if_neg h2]
  · intro steps' outcomes' fuel
    induction fuel with
    | zero => intro w'; exact Nat.le_refl _
    | succ n ih =>
        intro w'
        unfold runSteps
        by_cases hw : w'.state = WState.running
        · rw [if_pos hw]
          exact Nat.le_trans (hmono steps' outcomes' w') (ih _)
        · rw [if_neg hw]

/-- C2 amended witness at the concrete skip-branch workflow. -/
theorem C2_decision_amended_witness :
    ((skipBranch.action = "skip" →
      (stepOnce (fun _ => some 0) decisionSkipSteps freshWorkflow).currentStep
        = freshWorkflow.currentStep + effSkipCount skipBranch.skipCount + 1)
    ∧ (skipBranch.action = "execute" →
      (stepOnce (fun _ => some 0) decisionSkipSteps freshWorkflow).currentStep
        = freshWorkflow.currentStep + 2)
    ∧ (skipBranch.action ≠ "skip" → skipBranch.action ≠ "execute" →
      (stepOnce (fun _ => some 0) decisionSkipSteps freshWorkflow).currentStep
        = freshWorkflow.currentStep + 1)
    ∧ (∀ steps' outcomes' (w' : WorkflowRec),
        w'.currentStep ≤ (stepOnce outcomes' steps' w').currentStep)
    ∧ (∀ steps' outcomes' fuel (w' : WorkflowRec),
        w'.currentStep ≤ (runSteps outcomes' steps' fuel w').currentStep)) :=
  C2_decision_amended (fun _ => some 0) decisionSkipSteps freshWorkflow
    [skipBranch] skipBranch (by rfl) (by rfl) (by rfl)

/-- Step list for the C7 scenario: the evidence-collection template
[Process(disk-imaging), Process(malware-scan)]. -/
def twoProcSteps : List WStep :=
  [WStep.process "disk-imaging", WStep.process "malware-scan"]

/-- Worker outcomes for the C7 scenario: the first started worker exits
0, every later one exits 2. -/
def scnOutcomes : Nat → Option Int :=
  fun k => if k = 0 then some 0 else some 2

/-- C7: (i) the step loop never issues a stop request — across any run,
the instrumentation log of `stopProcess` invocations is untouched; (ii) a
process step whose worker exits non-zero leaves the workflow `failed`
with the error captured, the index unchanged and the started process
still recorded; (iii) in the concrete two-process scenario (first worker
exits 0, second exits 2) the workflow ends `failed` with
`currentStepIndex = 1`, `processIds` of length 2 and no stop issued. -/
theorem C7_step_failure (outcomes : Nat → Option Int) (steps : List WStep)
    (w : WorkflowRec) (processType : String)
    (hrun : w.state = WState.running)
    (hstep : steps[w.currentStep]? = some (WStep.process processType))
    (hfail : outcomes w.processes.length ≠ some 0) :
    (∀ outcomes' steps' fuel (w' : WorkflowRec),
        (runSteps outcomes' steps' fuel w').stops = w'.stops)
    ∧ ((stepOnce outcomes steps w).state = WState.failed
      ∧ (stepOnce outcomes steps w).error
          = some ("Process " ++ toString w.processes.length ++ " failed: "
              ++ exitErrMsg (outcomes w.processes.length) none)
      ∧ (stepOnce outcomes steps w).currentStep = w.currentStep
      ∧ (stepOnce outcomes steps w).processes
          = w.processes ++ [w.processes.length])
    ∧ runSteps scnOutcomes twoProcSteps 10 freshWorkflow
        = { currentStep := 1, state := WState.failed, processes := [0, 1],
            error := some ("Process 1 failed: " ++ exitErrMsg (some 2) none),
            stops := [] } := by
  have hstopsOnce : ∀ outcomes' steps' (w' : WorkflowRec),
      (stepOnce outcomes' steps' w').stops = w'.stops := by
    intro outcomes' steps' w'
    unfold stepOnce
    split
    · rfl
    · split
      · rfl
      · split
        · rfl
        · rfl
      · split
        · rfl
        · rfl
  refine ⟨?_, ?_, ?_⟩
  · intro outcomes' steps' fuel
    induction fuel with
    | zero => intro w'; rfl
    | succ n ih =>
        intro w'
        unfold runSteps
        by_cases hw : w'.state = WState.running
        · rw [if_pos hw, ih, hstopsOnce]
        · rw [if_neg hw]
  · unfold stepOnce
    rw [if_neg (by simp [hrun]), hstep]
    dsimp only
    rw [if_neg hfail]
    exact ⟨rfl, rfl, rfl, rfl⟩
  · rfl

/-- C7 witness: the second step of the scenario, a `malware-scan` process
step whose worker exits 2, taken from the workflow state after the first
step succeeded. -/
theorem C7_step_failure_witness :
    ((∀ outcomes' steps' fuel (w' : WorkflowRec),
        (runSteps outcomes' steps' fuel w').stops = w'.stops)
    ∧ ((stepOnce scnOutcomes twoProcSteps
          { currentStep := 1, state := WState.running, processes := [0],
            error := none, stops := [] }).state = WState.failed
      ∧ (stepOnce scnOutcomes twoProcSteps
          { currentStep := 1, state := WState.running, processes := [0],
            error := none, stops := [] }).error
          = some ("Process " ++ toString (
              ({ currentStep := 1, state := WState.running, processes := [0],
                 error := none, stops := [] } : WorkflowRec)).processes.length
              ++ " failed: " ++ exitErrMsg (scnOutcomes (
              ({ currentStep := 1, state := WState.running, processes := [0],
                 error := none, stops := [] } : WorkflowRec)).processes.length) none)
      ∧ (stepOnce scnOutcomes twoProcSteps
          { currentStep := 1, state := WState.running, processes := [0],
            error := none, stops := [] }).currentStep = 1
      ∧ (stepOnce scnOutcomes twoProcSteps
          { currentStep := 1, state := WState.running, processes := [0],
            error := none, stops := [] }).processes = [0] ++ [1])
    ∧ runSteps scnOutcomes twoProcSteps 10 freshWorkflow
        = { currentStep := 1, state := WState.failed, processes := [0, 1],
            error := some ("Process 1 failed: " ++ exitErrMsg (some 2) none),
            stops := [] }) :=
  C7_step_failure scnOutcomes twoProcSteps
    { currentStep := 1, state := WState.running, processes := [0],
      error := none, stops := [] } "malware-scan" (by rfl) (by rfl) (by decide)

/-- `ProcessManager._logProcess` acting on one process's in-memory log
list (part_001 lines 575-595): push the entry, then `shift()` the oldest
entry when the length exceeds 1000. The entry is the already-formatted
`[timestamp] message` string. -/
def logAppend (logs : List String) (entry : String) : List String :=
  if 1000 < (logs ++ [entry]).length then (logs ++ [entry]).drop 1
  else logs ++ [entry]

/-- A sequence of `_logProcess` calls against the same process's log
list. -/
def logAppendAll (logs : List String) (entries : List String) : List String :=
  entries.foldl logAppend logs

/-- Closed form of the log buffer: starting from a buffer within
capacity, appending any entry sequence leaves exactly the last 1000
elements of the concatenation, in order. -/
theorem logAppendAll_drop (entries : List String) :
    ∀ logs : List String, logs.length ≤ 1000 →
      logAppendAll logs entries
        = (logs ++ entries).drop ((logs ++ entries).length - 1000) := by
  induction entries with
  | nil =>
      intro logs h
      simp only [logAppendAll, List.foldl_nil, List.append_nil]
      rw [Nat.sub_eq_zero_of_le h, List.drop_zero]
  | cons m rest ih =>
      intro logs h
      have hstep : logAppendAll logs (m :: rest)
          = logAppendAll (logAppend logs m) rest := rfl
      rw [hstep]
      by_cases hbig : 1000 < (logs ++ [m]).length
      · have hA : logAppend logs m = (logs ++ [m]).drop 1 := by
          unfold logAppend
          rw [if_pos hbig]
        have h1 : 1 ≤ (logs ++ [m]).length := by
          simp only [List.length_append, List.length_cons, List.length_nil]
          omega
        have hlen : ((logs ++ [m]).drop 1).length ≤ 1000 := by
          rw [List.length_drop]
          simp only [List.length_append, List.length_cons, List.length_nil] at h ⊢
          omega
        rw [hA, ih _ hlen, ← List.drop_append_of_le_length h1, List.drop_drop]
        have hX : (logs ++ [m]) ++ rest = logs ++ m :: rest := by
          rw [List.append_assoc, List.singleton_append]
        rw [hX]
        have hcnt : 1 + (((logs ++ m :: rest).drop 1).length - 1000)
            = (logs ++ m :: rest).length - 1000 := by
          rw [List.length_drop]
          simp only [List.length_append, List.length_cons, List.length_nil] at hbig ⊢
          omega
        rw [hcnt]
      · have hA : logAppend logs m = logs ++ [m] := by
          unfold logAppend
          rw [if_neg hbig]
        rw [hA, ih _ (Nat.le_of_not_lt hbig)]
        rw [List.append_assoc, List.singleton_append]

/-- C9: the log buffer is a strict FIFO ring of capacity 1000: appending
to a full buffer evicts exactly the oldest entry; from an empty buffer any
append sequence leaves exactly the last 1000 entries in original order
(hence never more than 1000), and in particular any 1500 appends leave
exactly entries 501..1500. -/
theorem C9_log_buffer :
    (∀ entries : List String,
        logAppendAll [] entries = entries.drop (entries.length - 1000))
    ∧ (∀ entries : List String, (logAppendAll [] entries).length ≤ 1000)
    ∧ (∀ logs entry, List.length logs = 1000 →
        logAppend logs entry = logs.drop 1 ++ [entry])
    ∧ (∀ entries : List String, entries.length = 1500 →
        logAppendAll [] entries = entries.drop 500) := by
  have hbase : ∀ entries : List String,
      logAppendAll [] entries = entries.drop (entries.length - 1000) := by
    intro entries
    have h := logAppendAll_drop entries [] (by simp)
    simpa using h
  refine ⟨hbase, ?_, ?_, ?_⟩
  · intro entries
    rw [hbase, List.length_drop]
    omega
  · intro logs entry h
    unfold logAppend
    rw [if_pos (by
      simp only [List.length_append, List.length_cons, List.length_nil, h]
      omega)]
    rw [List.drop_append_of_le_length (by rw [h]; omega)]
  · intro entries h
    rw [hbase, h]

/-- C9 witness: eviction on a concrete full buffer and the 1500-append
instance on a concrete entry sequence. -/
theorem C9_log_buffer_witness :
    logAppend (List.replicate 1000 "a") "b"
        = (List.replicate 1000 "a").drop 1 ++ ["b"]
    ∧ logAppendAll [] (List.replicate 1500 "a")
        = (List.replicate 1500 "a").drop 500 :=
  ⟨C9_log_buffer.2.2.1 (List.replicate 1000 "a") "b" (by rw [List.length_replicate]),
   C9_log_buffer.2.2.2 (List.replicate 1500 "a") (by rw [List.length_replicate])⟩

/-- An extracted-artifact record as consumed by the decision-tree rules
(routes.js lines 1022-1031): its type string, its timestamp (the ISO
string modelled by its epoch value in milliseconds) and the associated
snapshot id. -/
structure Artifact where
  artifact_type : String
  timestamp : Nat
  snapshot_id : String
deriving DecidableEq

/-- `WORK_HOUR_START` (routes.js line 1004). -/
def WORK_HOUR_START : Nat := 8

/-- `WORK_HOUR_END` (routes.js line 1005). -/
def WORK_HOUR_END : Nat := 18

/-- `getHour` (routes.js lines 1008-1010): `new Date(iso).getUTCHours()`,
which for a timestamp of `t` milliseconds since the epoch is
`t / 3600000 mod 24`. -/
def getHour (timestampMs : Nat) : Nat :=
  timestampMs / 3600000 % 24

/-- An alert emitted by `ruleOffHourKeyExtraction` (routes.js line 1027):
it names the associated snapshot and the offending hour. -/
structure Alert where
  snapshot_id : String
  hour : Nat
deriving DecidableEq

/-- The per-artifact body of the `forEach` in `ruleOffHourKeyExtraction`
(routes.js lines 1023-1030): an artifact of type `serpent_xts_key` — the
type marking a key-extraction artifact — whose hour lies before
`WORK_HOUR_START` or at/after `WORK_HOUR_END` yields one alert; any other
artifact yields none. -/
def artifactAlerts (a : Artifact) : List Alert :=
  if a.artifact_type = "serpent_xts_key" then
    if getHour a.timestamp < WORK_HOUR_START ∨ WORK_HOUR_END ≤ getHour a.timestamp then
      [{ snapshot_id := a.snapshot_id, hour := getHour a.timestamp }]
    else []
  else []

/-- `ruleOffHourKeyExtraction` (routes.js lines 1022-1031): the alerts
emitted over the artifact list, in traversal order. -/
def ruleOffHourKeyExtraction (artifacts : List Artifact) : List Alert :=
  artifacts.foldr (fun a acc => artifactAlerts a ++ acc) []

/-- A key-extraction artifact whose timestamp falls at hour `h` UTC of
the epoch day. -/
def keyArtifactAt (h : Nat) : Artifact :=
  { artifact_type := "serpent_xts_key", timestamp := h * 3600000,
    snapshot_id := "snap" }

/-- C10: a key-extraction artifact contributes exactly one alert naming
its snapshot precisely when its UTC hour lies outside 08:00-18:00 with the
end exclusive (hour below 8 or at least 18), and no alert otherwise; in
particular hour 3 UTC yields the alert and hour 10 UTC yields none. -/
theorem C10_off_hours_rule (a : Artifact) (rest : List Artifact)
    (hkey : a.artifact_type = "serpent_xts_key") :
    (ruleOffHourKeyExtraction (a :: rest)
      = (if getHour a.timestamp < WORK_HOUR_START ∨ WORK_HOUR_END ≤ getHour a.timestamp
          then [{ snapshot_id := a.snapshot_id, hour := getHour a.timestamp }]
          else [])
        ++ ruleOffHourKeyExtraction rest)
    ∧ ruleOffHourKeyExtraction [keyArtifactAt 3]
        = [{ snapshot_id := "snap", hour := 3 }]
    ∧ ruleOffHourKeyExtraction [keyArtifactAt 10] = [] := by
  refine ⟨?_, by decide, by decide⟩
  have h1 : ruleOffHourKeyExtraction (a :: rest)
      = artifactAlerts a ++ ruleOffHourKeyExtraction rest := rfl
  rw [h1]
  unfold artifactAlerts
  rw [if_pos hkey]

/-- C10 witness at the hour-3 artifact with an empty remainder list. -/
theorem C10_off_hours_rule_witness :
    ((ruleOffHourKeyExtraction [keyArtifactAt 3]
      = (if getHour (keyArtifactAt 3).timestamp < WORK_HOUR_START
            ∨ WORK_HOUR_END ≤ getHour (keyArtifactAt 3).timestamp
          then [{ snapshot_id := (keyArtifactAt 3).snapshot_id,
                  hour := getHour (keyArtifactAt 3).timestamp }]
          else [])
        ++ ruleOffHourKeyExtraction [])
    ∧ ruleOffHourKeyExtraction [keyArtifactAt 3]
        = [{ snapshot_id := "snap", hour := 3 }]
    ∧ ruleOffHourKeyExtraction [keyArtifactAt 10] = []) :=
  C10_off_hours_rule (keyArtifactAt 3) [] (by rfl)
